import Mathlib

/-!
# Verification of `services/agent-runtime/src/tools/bindings.py`

A shallow embedding of the tool-gateway client adapter: JSON values as an
inductive type, Python `dict.get` / truthiness semantics made explicit, the
request-envelope builder, the transport selector, the hosted-runtime
(agentcore) transport precondition, the session-identifier generator, and
the response-validation pipeline of `search_kb`.

Decoded JSON bodies are modelled as association lists `List (String × Json)`
(Python dicts after `json.loads`).  Network effects are abstracted: the
transport is a parameter returning either a transport-level error or a
decoded body, matching `_call_tool_gateway`.
-/

set_option autoImplicit false

namespace Bindings

/-- A decoded JSON value (what `json.loads` produces in Python: `None`,
`bool`, `str`, numbers, lists, dicts). -/
inductive Json where
  | null
  | bool (b : Bool)
  | str (s : String)
  | num (n : Int)
  | arr (elems : List Json)
  | obj (fields : List (String × Json))

/-- `CONTRACT_VERSION = "v1"` — the frozen handshake between agent and gateway. -/
def CONTRACT_VERSION : String := "v1"

/-- Python `d.get(k)` on a dict, as lookup in an association list:
`none` when the key is absent. -/
def getField : List (String × Json) → String → Option Json
  | [], _ => none
  | (k, v) :: rest, key => if k = key then some v else getField rest key

/-- Python truthiness of a decoded JSON value: `None`, `False`, `0`, `""`,
`[]` and `{}` are falsy, everything else truthy. -/
def truthy : Json → Bool
  | .null => false
  | .bool b => b
  | .str s => !(s = "")
  | .num n => !(n = 0)
  | .arr elems => !elems.isEmpty
  | .obj fields => !fields.isEmpty

/-- Truthiness of the result of `d.get(k)`: an absent key yields Python
`None`, which is falsy. -/
def optTruthy : Option Json → Bool
  | none => false
  | some j => truthy j

/-- Python `d.get(k, {}) or {}`: the default `{}` when the key is absent,
and any falsy value (including `None`) coerced to `{}`. -/
def pyOrDict : Option Json → Json
  | none => .obj []
  | some j => if truthy j then j else .obj []

/-- Is this JSON value a dict? -/
def Json.isObj : Json → Bool
  | .obj _ => true
  | _ => false

/-- Python `j.get(k, dflt)`: defined when `j` is a dict (a present key wins
even when its value is `null`); on any other value Python raises
`AttributeError` (no `.get` attribute), modelled as `Except.error`. -/
def dictGet (j : Json) (key : String) (dflt : Json) : Except Unit Json :=
  match j with
  | .obj fields => .ok ((getField fields key).getD dflt)
  | _ => .error ()

/-- `body.get("contract_version") != CONTRACT_VERSION`, negated: the decoded
value compares equal to the string `"v1"` exactly when it is that string. -/
def versionMatches (body : List (String × Json)) : Bool :=
  match getField body "contract_version" with
  | some (.str s) => s = CONTRACT_VERSION
  | _ => false

/-- Errors a transport-layer call (`_call_tool_gateway` and the two
transports behind it) can raise. -/
inductive GatewayErr where
  | configurationError (msg : String)
  | transportError (msg : String)

/-- Every way a `search_kb` call can fail: the two transport-layer kinds,
the three validation kinds, and the Python `AttributeError` escape hatch
reached when a truthy non-dict `error`/`output` field meets `.get`. -/
inductive SearchErr where
  | configurationError (msg : String)
  | transportError (msg : String)
  | contractMismatch
  | toolFailure (msg : Json)
  | malformedResponse (missingField : String)
  | attributeError

/-- Transport-layer errors embed into the `search_kb` error taxonomy. -/
def liftGatewayErr : GatewayErr → SearchErr
  | .configurationError msg => .configurationError msg
  | .transportError msg => .transportError msg

/-- The five documented error kinds; only the raw Python `AttributeError`
falls outside the taxonomy. -/
def isClassified : SearchErr → Bool
  | .attributeError => false
  | _ => true

/-- Ambient context read from the environment: `TENANT_ID`, `USER_ID`,
`CORRELATION_ID` (each `none` when unset). -/
structure Ctx where
  tenant_id : Option String
  user_id : Option String
  correlation_id : Option String

/-- `os.getenv` yields `None` or a string; as a JSON field value. -/
def jsonOfOptStr : Option String → Json
  | none => .null
  | some s => .str s

/-- The request envelope built by `search_kb` (the `payload` dict literal). -/
def buildPayload (query : String) (ctx : Ctx) : List (String × Json) :=
  [ ("contract_version", .str CONTRACT_VERSION)
  , ("tool_name", .str "search_kb")
  , ("input", .obj [("query", .str query)])
  , ("tenant_id", jsonOfOptStr ctx.tenant_id)
  , ("user_id", jsonOfOptStr ctx.user_id)
  , ("correlation_id", jsonOfOptStr ctx.correlation_id) ]

/-- The defensive checks of `search_kb` applied to the decoded response
body, line by line:
1. `body.get("contract_version") != CONTRACT_VERSION` → contract mismatch;
2. `not body.get("ok")` → tool failure with
   `(body.get("error", {}) or {}).get("message", "Tool call failed")`;
3. `(body.get("output", {}) or {}).get("results")` is `None` → malformed
   response; otherwise the `results` value is returned unchanged. -/
def validateBody (body : List (String × Json)) : Except SearchErr Json :=
  if versionMatches body then
    if optTruthy (getField body "ok") then
      match dictGet (pyOrDict (getField body "output")) "results" .null with
      | .error _ => .error .attributeError
      | .ok .null => .error (.malformedResponse "results")
      | .ok results => .ok results
    else
      match dictGet (pyOrDict (getField body "error")) "message" (.str "Tool call failed") with
      | .error _ => .error .attributeError
      | .ok msg => .error (.toolFailure msg)
  else
    .error .contractMismatch

/-- The message the spec assigns to a ToolFailure: `error.message` when
that field is present in the (dict-coerced) `error` field, else the
fallback `"Tool call failed"`. -/
def failureMessage (body : List (String × Json)) : Json :=
  match pyOrDict (getField body "error") with
  | .obj fields => (getField fields "message").getD (.str "Tool call failed")
  | _ => .str "Tool call failed"

/-- `search_kb(query)`: build the envelope, dispatch it through the
transport (`_call_tool_gateway`, abstracted as `gw`), then validate the
decoded body.  Transport-layer errors propagate unchanged. -/
def searchKb (gw : List (String × Json) → Except GatewayErr (List (String × Json)))
    (ctx : Ctx) (query : String) : Except SearchErr Json :=
  match gw (buildPayload query ctx) with
  | .error e => .error (liftGatewayErr e)
  | .ok body => validateBody body

/-- `_new_runtime_session_id()`: `"session-" + uuid.uuid4().hex`, with the
random 32-character hex token as a parameter. -/
def newRuntimeSessionId (uuidHex : String) : String :=
  "session-" ++ uuidHex

/-- Python `str.lower()` on the ASCII mode strings: lowercase every
character. -/
def pyLower (s : String) : String :=
  String.mk (s.data.map Char.toLower)

/-- `TOOL_GATEWAY_MODE = os.getenv("TOOL_GATEWAY_MODE", "http").lower()`. -/
def toolGatewayMode (env : Option String) : String :=
  pyLower (env.getD "http")

/-- `if not TOOL_GATEWAY_RUNTIME_ARN` — the ARN setting is missing when the
variable is unset or the empty string (both falsy in Python). -/
def arnPresent : Option String → Bool
  | none => false
  | some s => !(s = "")

/-- `_call_tool_gateway_agentcore`: without a truthy
`TOOL_GATEWAY_RUNTIME_ARN` it raises before touching the network;
otherwise it performs exactly one `invoke_agent_runtime` call (the `invoke`
parameter), whose stream-read/decode failures are transport errors.  The
second component counts outbound invocations. -/
def callToolGatewayAgentcore (arn : Option String) (qualifier : String)
    (sessionId : String)
    (invoke : String → String → List (String × Json) → String →
      Except Unit (List (String × Json)))
    (payload : List (String × Json)) :
    Except GatewayErr (List (String × Json)) × Nat :=
  if arnPresent arn then
    match invoke (arn.getD "") sessionId payload qualifier with
    | .ok data => (.ok data, 1)
    | .error _ => (.error (.transportError "stream read or decode failure"), 1)
  else
    (.error (.configurationError
      "TOOL_GATEWAY_RUNTIME_ARN is required when TOOL_GATEWAY_MODE=agentcore"), 0)

/-- `_call_tool_gateway`: route to the agentcore transport exactly when the
mode string equals `"agentcore"`, otherwise to the HTTP transport. -/
def callToolGateway {α : Type} (mode : String)
    (agentcoreCall httpCall : List (String × Json) → α)
    (payload : List (String × Json)) : α :=
  if mode = "agentcore" then agentcoreCall payload else httpCall payload

/-! ## Concrete envelopes and contexts used to instantiate the theorems -/

/-- An empty ambient context (no tenant/user/correlation identifiers set). -/
def ctx0 : Ctx := ⟨none, none, none⟩

/-- The spec's success scenario body:
`{"contract_version":"v1","ok":true,"output":{"results":[{"id":"doc1"}]}}`. -/
def envGood : List (String × Json) :=
  [ ("contract_version", .str "v1"), ("ok", .bool true)
  , ("output", .obj [("results", .arr [.obj [("id", .str "doc1")]])]) ]

/-- A body with the wrong contract version but `ok=true` and `results`
present: `{"contract_version":"v2","ok":true,"output":{"results":[]}}`. -/
def envV2 : List (String × Json) :=
  [ ("contract_version", .str "v2"), ("ok", .bool true)
  , ("output", .obj [("results", .arr [])]) ]

/-- A matching-version success body whose `results` field is bound to
`null`: `{"contract_version":"v1","ok":true,"output":{"results":null}}`. -/
def envNullResults : List (String × Json) :=
  [ ("contract_version", .str "v1"), ("ok", .bool true)
  , ("output", .obj [("results", Json.null)]) ]

/-- A matching-version failure body whose `error` field is a string, not a
mapping: `{"contract_version":"v1","ok":false,"error":"oops"}`. -/
def envStrError : List (String × Json) :=
  [ ("contract_version", .str "v1"), ("ok", .bool false)
  , ("error", .str "oops") ]

/-- A matching-version body whose `output` field is a string, not a
mapping: `{"contract_version":"v1","ok":true,"output":"oops"}`. -/
def envStrOutput : List (String × Json) :=
  [ ("contract_version", .str "v1"), ("ok", .bool true)
  , ("output", .str "oops") ]

/-- A failure body with a proper error mapping:
`{"contract_version":"v1","ok":false,"error":{"message":"boom"}}`. -/
def envToolFailure : List (String × Json) :=
  [ ("contract_version", .str "v1"), ("ok", .bool false)
  , ("error", .obj [("message", .str "boom")]) ]

/-- A matching-version failure body with no error field at all:
`{"contract_version":"v1","ok":false}`. -/
def envOkFalse : List (String × Json) :=
  [ ("contract_version", .str "v1"), ("ok", .bool false) ]

/-- A success body whose output mapping lacks `results`:
`{"contract_version":"v1","ok":true,"output":{"items":[]}}`. -/
def envNoResults : List (String × Json) :=
  [ ("contract_version", .str "v1"), ("ok", .bool true)
  , ("output", .obj [("items", .arr [])]) ]

/-- A success body whose `output` field is `null`:
`{"contract_version":"v1","ok":true,"output":null}`. -/
def envNullOutput : List (String × Json) :=
  [ ("contract_version", .str "v1"), ("ok", .bool true)
  , ("output", Json.null) ]

/-! ## Claim theorems -/

/-- C1: whenever the transport hands back a body whose `contract_version`
is absent or differs from `CONTRACT_VERSION`, `search_kb` fails with the
ContractMismatch error — never a success — regardless of every other field
of the body (`ok=true` and a present `results` included), since the result
is determined by the version check alone. -/
theorem searchKb_contract_mismatch
    (gw : List (String × Json) → Except GatewayErr (List (String × Json)))
    (ctx : Ctx) (query : String) (body : List (String × Json))
    (hgw : gw (buildPayload query ctx) = .ok body)
    (hv : versionMatches body = false) :
    searchKb gw ctx query = .error .contractMismatch := by
  simp [searchKb, hgw, validateBody, hv]

/-- C1 witness: the spec's mismatch scenario, a `v2` envelope with `ok=true`
and `results` present, yields ContractMismatch. -/
theorem searchKb_contract_mismatch_witness :
    searchKb (fun _ => .ok envV2) ctx0 "refund policy" = .error .contractMismatch :=
  searchKb_contract_mismatch (fun _ => .ok envV2) ctx0 "refund policy" envV2 rfl rfl

/-- C5: the session identifier `"session-" + uuid4().hex` has length 40,
clearing the hosted runtime's 33-character minimum, whenever the hex token
has the 32 characters `uuid4().hex` always produces. -/
theorem newRuntimeSessionId_min_length (uuidHex : String)
    (h : uuidHex.length = 32) :
    33 ≤ (newRuntimeSessionId uuidHex).length := by
  cases uuidHex with
  | mk data =>
    show 33 ≤ (String.mk (['s','e','s','s','i','o','n','-'] ++ data)).length
    have hd : data.length = 32 := h
    simp [String.length]
    omega

/-- C5 witness: a concrete 32-character hex token yields an identifier of
length at least 33. -/
theorem newRuntimeSessionId_min_length_witness :
    33 ≤ (newRuntimeSessionId "0123456789abcdef0123456789abcdef").length :=
  newRuntimeSessionId_min_length "0123456789abcdef0123456789abcdef" rfl

/-- C6: in agentcore mode with `TOOL_GATEWAY_RUNTIME_ARN` unset (or empty,
both falsy), the call fails with the ConfigurationError and performs zero
outbound invocations of the runtime. -/
theorem agentcore_missing_arn_no_network (arn : Option String)
    (qualifier sessionId : String)
    (invoke : String → String → List (String × Json) → String →
      Except Unit (List (String × Json)))
    (payload : List (String × Json))
    (h : arnPresent arn = false) :
    callToolGatewayAgentcore arn qualifier sessionId invoke payload
      = (.error (.configurationError
          "TOOL_GATEWAY_RUNTIME_ARN is required when TOOL_GATEWAY_MODE=agentcore"), 0) := by
  simp [callToolGatewayAgentcore, h]

/-- C6 witness: with the ARN absent, a spying transport records zero
invocations and the caller sees the ConfigurationError. -/
theorem agentcore_missing_arn_no_network_witness :
    callToolGatewayAgentcore none "DEFAULT" "session-x"
        (fun _ _ _ _ => .ok []) []
      = (.error (.configurationError
          "TOOL_GATEWAY_RUNTIME_ARN is required when TOOL_GATEWAY_MODE=agentcore"), 0) :=
  agentcore_missing_arn_no_network none "DEFAULT" "session-x"
    (fun _ _ _ _ => .ok []) [] rfl

/-- C8: for every query and ambient context, the request envelope carries
the compiled-in contract version, the tool name `search_kb`, the input
mapping `{"query": Q}`, and the tenant/user/correlation identifiers, each
rendered `null` when absent from the context. -/
theorem buildPayload_invariant (query : String) (ctx : Ctx) :
    getField (buildPayload query ctx) "contract_version"
        = some (.str CONTRACT_VERSION) ∧
    getField (buildPayload query ctx) "tool_name" = some (.str "search_kb") ∧
    getField (buildPayload query ctx) "input"
        = some (.obj [("query", .str query)]) ∧
    getField (buildPayload query ctx) "tenant_id"
        = some (jsonOfOptStr ctx.tenant_id) ∧
    getField (buildPayload query ctx) "user_id"
        = some (jsonOfOptStr ctx.user_id) ∧
    getField (buildPayload query ctx) "correlation_id"
        = some (jsonOfOptStr ctx.correlation_id) :=
  ⟨rfl, rfl, rfl, rfl, rfl, rfl⟩

/-- C10: every configured mode string whose lowercased value is not
`agentcore` — misspellings included — routes the call to the direct-HTTP
transport; no unknown-mode error exists. -/
theorem dispatch_default_http {α : Type} (env : Option String)
    (agentcoreCall httpCall : List (String × Json) → α)
    (payload : List (String × Json))
    (h : toolGatewayMode env ≠ "agentcore") :
    callToolGateway (toolGatewayMode env) agentcoreCall httpCall payload
      = httpCall payload := by
  simp [callToolGateway, h]

/-- C10 witness: the misspelled mode `"AgentCor"` routes to the HTTP
transport. -/
theorem dispatch_default_http_witness :
    callToolGateway (toolGatewayMode (some "AgentCor"))
        (fun _ => false) (fun _ => true) [] = true :=
  dispatch_default_http (some "AgentCor") (fun _ => false) (fun _ => true) []
    (by decide)

/-- A JSON value recognised as a dict is an `obj`. -/
theorem isObj_exists {j : Json} (h : j.isObj = true) :
    ∃ fields, j = .obj fields := by
  cases j with
  | obj fields => exact ⟨fields, rfl⟩
  | null => simp [Json.isObj] at h
  | bool b => simp [Json.isObj] at h
  | str s => simp [Json.isObj] at h
  | num n => simp [Json.isObj] at h
  | arr elems => simp [Json.isObj] at h

/-- C2 counterexample: on a matching-version body with `ok=true` whose
output mapping contains a `results` field bound to `null`, `search_kb`
raises MalformedResponse instead of returning the field's value (`null`). -/
theorem searchKb_null_results_counterexample :
    getField envNullResults "output" = some (.obj [("results", Json.null)]) ∧
    searchKb (fun _ => .ok envNullResults) ctx0 "refund policy"
      = .error (.malformedResponse "results") :=
  ⟨rfl, rfl⟩

/-- C2 amended: if the transport returns a body with matching
`contract_version`, `ok=true`, and an output mapping containing a
`results` field bound to a non-null value, then `search_kb` returns
exactly that value, unchanged. -/
theorem searchKb_success_unwrap
    (gw : List (String × Json) → Except GatewayErr (List (String × Json)))
    (ctx : Ctx) (query : String)
    (body outputFields : List (String × Json)) (r : Json)
    (hgw : gw (buildPayload query ctx) = .ok body)
    (hv : versionMatches body = true)
    (hok : getField body "ok" = some (.bool true))
    (hout : getField body "output" = some (.obj outputFields))
    (hres : getField outputFields "results" = some r)
    (hnn : r ≠ .null) :
    searchKb gw ctx query = .ok r := by
  have hne : outputFields.isEmpty = false := by
    cases outputFields with
    | nil => simp [getField] at hres
    | cons a l => rfl
  have hok2 : optTruthy (getField body "ok") = true := by
    rw [hok]; rfl
  cases r with
  | null => exact absurd rfl hnn
  | bool b =>
      simp [searchKb, hgw, validateBody, hv, hok2, hout, pyOrDict, truthy,
        hne, dictGet, hres]
  | str s =>
      simp [searchKb, hgw, validateBody, hv, hok2, hout, pyOrDict, truthy,
        hne, dictGet, hres]
  | num n =>
      simp [searchKb, hgw, validateBody, hv, hok2, hout, pyOrDict, truthy,
        hne, dictGet, hres]
  | arr elems =>
      simp [searchKb, hgw, validateBody, hv, hok2, hout, pyOrDict, truthy,
        hne, dictGet, hres]
  | obj fields =>
      simp [searchKb, hgw, validateBody, hv, hok2, hout, pyOrDict, truthy,
        hne, dictGet, hres]

/-- C2 witness: the spec's success scenario — query `"refund policy"`,
body `{"contract_version":"v1","ok":true,"output":{"results":[{"id":"doc1"}]}}`
— returns `[{"id":"doc1"}]`. -/
theorem searchKb_success_unwrap_witness :
    searchKb (fun _ => .ok envGood) ctx0 "refund policy"
      = .ok (.arr [.obj [("id", .str "doc1")]]) :=
  searchKb_success_unwrap (fun _ => .ok envGood) ctx0 "refund policy"
    envGood [("results", .arr [.obj [("id", .str "doc1")]])]
    (.arr [.obj [("id", .str "doc1")]]) rfl rfl rfl rfl rfl
    (fun h => Json.noConfusion h)

/-- C3 counterexample: on a matching-version body with `ok=false` whose
`error` field is the string `"oops"` (truthy, not a mapping), `search_kb`
crashes with `AttributeError` (`'str' object has no attribute 'get'`)
instead of failing with a ToolFailure carrying the fallback message. -/
theorem searchKb_nondict_error_counterexample :
    searchKb (fun _ => .ok envStrError) ctx0 "refund policy"
      = .error .attributeError :=
  rfl

/-- C3 amended: if the transport returns a body with matching
`contract_version` whose `ok` flag is absent or falsy, and whose `error`
field coerces to a mapping (it is absent, falsy, or itself a mapping),
then `search_kb` fails with a ToolFailure whose message is `error.message`
when present, else the fallback `"Tool call failed"`. -/
theorem searchKb_tool_failure
    (gw : List (String × Json) → Except GatewayErr (List (String × Json)))
    (ctx : Ctx) (query : String) (body : List (String × Json))
    (hgw : gw (buildPayload query ctx) = .ok body)
    (hv : versionMatches body = true)
    (hok : optTruthy (getField body "ok") = false)
    (herr : (pyOrDict (getField body "error")).isObj = true) :
    searchKb gw ctx query = .error (.toolFailure (failureMessage body)) := by
  obtain ⟨errFields, hpe⟩ := isObj_exists herr
  simp [searchKb, hgw, validateBody, hv, hok, hpe, dictGet, failureMessage]

/-- C3 witness: a failure body with `error.message = "boom"` yields a
ToolFailure carrying `"boom"`. -/
theorem searchKb_tool_failure_witness :
    searchKb (fun _ => .ok envToolFailure) ctx0 "refund policy"
      = .error (.toolFailure (.str "boom")) :=
  searchKb_tool_failure (fun _ => .ok envToolFailure) ctx0 "refund policy"
    envToolFailure rfl rfl rfl rfl

/-- C4: if the transport returns a body with matching `contract_version`,
`ok=true`, and an output mapping lacking the `results` field, then
`search_kb` fails with a MalformedResponse naming the missing `results`
field. -/
theorem searchKb_malformed_missing_results
    (gw : List (String × Json) → Except GatewayErr (List (String × Json)))
    (ctx : Ctx) (query : String)
    (body outputFields : List (String × Json))
    (hgw : gw (buildPayload query ctx) = .ok body)
    (hv : versionMatches body = true)
    (hok : getField body "ok" = some (.bool true))
    (hout : getField body "output" = some (.obj outputFields))
    (hres : getField outputFields "results" = none) :
    searchKb gw ctx query = .error (.malformedResponse "results") := by
  have hok2 : optTruthy (getField body "ok") = true := by
    rw [hok]; rfl
  cases outputFields with
  | nil =>
      simp [searchKb, hgw, validateBody, hv, hok2, hout, pyOrDict, truthy,
        dictGet, getField]
  | cons a l =>
      simp [searchKb, hgw, validateBody, hv, hok2, hout, pyOrDict, truthy,
        dictGet, hres]

/-- C4 witness: a success body whose output is `{"items":[]}` yields
MalformedResponse for the missing `results`. -/
theorem searchKb_malformed_missing_results_witness :
    searchKb (fun _ => .ok envNoResults) ctx0 "refund policy"
      = .error (.malformedResponse "results") :=
  searchKb_malformed_missing_results (fun _ => .ok envNoResults) ctx0
    "refund policy" envNoResults [("items", .arr [])] rfl rfl rfl rfl rfl

/-- C7 counterexample: a failing call whose body is
`{"contract_version":"v1","ok":true,"output":"oops"}` surfaces a raw
`AttributeError`, which is none of the five documented error kinds. -/
theorem searchKb_unclassified_failure_counterexample :
    searchKb (fun _ => .ok envStrOutput) ctx0 "refund policy"
      = .error .attributeError ∧
    isClassified .attributeError = false :=
  ⟨rfl, rfl⟩

/-- C7 amended: provided every body the transport hands back has `error`
and `output` fields that coerce to mappings (absent, falsy, or mappings),
every failing `search_kb` call surfaces one of the five documented error
kinds — ConfigurationError, TransportError, ContractMismatch, ToolFailure,
MalformedResponse — and never a partial result; a truthy non-mapping
`error`/`output` field instead escapes as a raw AttributeError. -/
theorem searchKb_errors_classified
    (gw : List (String × Json) → Except GatewayErr (List (String × Json)))
    (ctx : Ctx) (query : String)
    (hsafe : ∀ body, gw (buildPayload query ctx) = .ok body →
      (pyOrDict (getField body "error")).isObj = true ∧
      (pyOrDict (getField body "output")).isObj = true)
    (e : SearchErr) (he : searchKb gw ctx query = .error e) :
    isClassified e = true := by
  cases hg : gw (buildPayload query ctx) with
  | error ge =>
      simp [searchKb, hg] at he
      cases ge with
      | configurationError msg => rw [← he]; rfl
      | transportError msg => rw [← he]; rfl
  | ok body =>
      obtain ⟨h1, h2⟩ := hsafe body hg
      obtain ⟨errFields, hpe⟩ := isObj_exists h1
      obtain ⟨outFields, hpo⟩ := isObj_exists h2
      simp [searchKb, hg] at he
      by_cases hv : versionMatches body = true
      · by_cases hok : optTruthy (getField body "ok") = true
        · rcases hres : (getField outFields "results").getD Json.null with
            _ | b | s | n | es | fs
          · simp [validateBody, hv, hok, hpo, dictGet, hres] at he
            rw [← he]; rfl
          · simp [validateBody, hv, hok, hpo, dictGet, hres] at he
          · simp [validateBody, hv, hok, hpo, dictGet, hres] at he
          · simp [validateBody, hv, hok, hpo, dictGet, hres] at he
          · simp [validateBody, hv, hok, hpo, dictGet, hres] at he
          · simp [validateBody, hv, hok, hpo, dictGet, hres] at he
        · rw [Bool.not_eq_true] at hok
          simp [validateBody, hv, hok, hpe, dictGet] at he
          rw [← he]; rfl
      · rw [Bool.not_eq_true] at hv
        simp [validateBody, hv] at he
        rw [← he]; rfl

/-- C7 witness: a transport returning `{"contract_version":"v1","ok":false}`
produces a failure of one of the five kinds (here a ToolFailure with the
fallback message). -/
theorem searchKb_errors_classified_witness :
    isClassified (SearchErr.toolFailure (.str "Tool call failed")) = true :=
  searchKb_errors_classified (fun _ => .ok envOkFalse) ctx0 "refund policy"
    (fun body h => by
      injection h with h2
      subst h2
      exact ⟨rfl, rfl⟩)
    (.toolFailure (.str "Tool call failed")) rfl

/-- C9: if the transport returns a body with matching `contract_version`
and `ok=true` in which `output` is absent or `null`, or in which the
output mapping binds `results` to `null`, then `search_kb` fails with the
MalformedResponse error (no crash, no `null` success): a null `output` is
coerced to an empty mapping and a null `results` is treated as absent. -/
theorem searchKb_null_output_malformed
    (gw : List (String × Json) → Except GatewayErr (List (String × Json)))
    (ctx : Ctx) (query : String) (body : List (String × Json))
    (hgw : gw (buildPayload query ctx) = .ok body)
    (hv : versionMatches body = true)
    (hok : getField body "ok" = some (.bool true))
    (hout : getField body "output" = none ∨
      getField body "output" = some Json.null ∨
      ∃ outputFields, getField body "output" = some (.obj outputFields) ∧
        getField outputFields "results" = some Json.null) :
    searchKb gw ctx query = .error (.malformedResponse "results") := by
  have hok2 : optTruthy (getField body "ok") = true := by
    rw [hok]; rfl
  rcases hout with h | h | ⟨outputFields, h, hres⟩
  · simp [searchKb, hgw, validateBody, hv, hok2, h, pyOrDict, dictGet,
      getField]
  · simp [searchKb, hgw, validateBody, hv, hok2, h, pyOrDict, truthy,
      dictGet, getField]
  · cases outputFields with
    | nil => simp [getField] at hres
    | cons a l =>
        simp [searchKb, hgw, validateBody, hv, hok2, h, pyOrDict, truthy,
          dictGet, hres]

/-- C9 witness: the body `{"contract_version":"v1","ok":true,"output":null}`
yields MalformedResponse for `results`. -/
theorem searchKb_null_output_malformed_witness :
    searchKb (fun _ => .ok envNullOutput) ctx0 "refund policy"
      = .error (.malformedResponse "results") :=
  searchKb_null_output_malformed (fun _ => .ok envNullOutput) ctx0
    "refund policy" envNullOutput rfl rfl rfl (Or.inr (Or.inl rfl))

end Bindings
